import Mathlib

/-!
Shallow embedding of the issue status workflow engine of the
fix-track-bot repository (package `domain` and package `service`),
together with theorems settling the specification claims.

Conventions of the embedding:
- Go string-typed enumerations (`Status`, `Priority`, `AssigneeRole`)
  are embedded as `String`, with one Lean constant per Go constant.
- `uuid.UUID` values are embedded as `Nat`; the canonical string form
  of an ID is its decimal rendering `toString`.
- `time.Time` is embedded as `Nat`; `time.Now()` becomes an explicit
  `now : Nat` argument threaded to the operations that read the clock.
- Nilable Go values (`*Status`, `*time.Time`, `*uuid.UUID`) become
  `Option`.
- The GORM-backed stores become lists carried in explicit state
  records; a fallible Go method returning `error` becomes a function
  returning `Except ServiceError _` paired with the updated state.
-/

namespace FixTrack

/-- Go type `domain.Status` is a string type. -/
abbrev Status := String

/-- Go type `domain.Priority` is a string type. -/
abbrev Priority := String

/-- Go type `domain.AssigneeRole` is a string type. -/
abbrev AssigneeRole := String

def statusOpen : Status := "open"
def statusAssignedDev : Status := "assigned_dev"
def statusInProgress : Status := "in_progress"
def statusResolved : Status := "resolved"
def statusAssignedQA : Status := "assigned_qa"
def statusVerified : Status := "verified"
def statusClosed : Status := "closed"
def statusRejected : Status := "rejected"
def statusReopened : Status := "reopened"

/-- The nine declared workflow statuses, in declaration order. -/
def allStatuses : List Status :=
  [statusOpen, statusAssignedDev, statusInProgress, statusResolved,
   statusAssignedQA, statusVerified, statusClosed, statusRejected,
   statusReopened]

def priorityLow : Priority := "low"
def priorityMedium : Priority := "medium"
def priorityHigh : Priority := "high"

def assigneeRoleDev : AssigneeRole := "dev"
def assigneeRoleQA : AssigneeRole := "qa"
def assigneeRoleReviewer : AssigneeRole := "reviewer"
def assigneeRoleOther : AssigneeRole := "other"

/-- Embeds `domain.IsValidPriority`: accepts exactly low, medium, high. -/
def isValidPriority (p : Priority) : Bool :=
  decide (p = priorityLow) || decide (p = priorityMedium) || decide (p = priorityHigh)

/-- Embeds `domain.IsValidStatus`: the validator in issue.go accepts only
the two statuses `open` and `closed`, although nine are declared. -/
def isValidStatus (s : Status) : Bool :=
  decide (s = statusOpen) || decide (s = statusClosed)

/-- Embeds `domain.AssigneeRole.IsValid`: switch over dev, qa, reviewer,
other; anything else is invalid. -/
def isValidRole (r : AssigneeRole) : Bool :=
  decide (r = assigneeRoleDev) || decide (r = assigneeRoleQA) ||
  decide (r = assigneeRoleReviewer) || decide (r = assigneeRoleOther)

/-- Embeds the `validTransitions` map literal built inside
`domain.IsStatusTransitionValid` (issue_status_log.go): row lookup
returns `none` exactly when the map has no entry for the key. -/
def statusTransitionRow (s : Status) : Option (List Status) :=
  if s = statusOpen then some [statusAssignedDev, statusClosed]
  else if s = statusAssignedDev then some [statusInProgress, statusOpen, statusClosed]
  else if s = statusInProgress then some [statusResolved, statusAssignedDev, statusOpen]
  else if s = statusResolved then some [statusAssignedQA, statusClosed, statusInProgress]
  else if s = statusAssignedQA then some [statusVerified, statusRejected, statusResolved]
  else if s = statusVerified then some [statusClosed, statusRejected]
  else if s = statusRejected then some [statusAssignedDev, statusInProgress, statusOpen]
  else if s = statusClosed then some [statusReopened]
  else if s = statusReopened then some [statusOpen, statusAssignedDev]
  else none

/-- Embeds `domain.IsStatusTransitionValid`: a nil `from` (issue does not
yet exist) allows only `open`; otherwise the target must appear in the
row of the transition map, and a missing row yields false. -/
def isStatusTransitionValid (fromStatus : Option Status) (toStatus : Status) : Bool :=
  match fromStatus with
  | none => decide (toStatus = statusOpen)
  | some f =>
    match statusTransitionRow f with
    | none => false
    | some allowed => allowed.contains toStatus

/-- Embeds `domain.GetNextPossibleStatuses` (issue_status_log.go, the
nine-status table): map lookup, empty list for an unknown status. -/
def getNextPossibleStatuses (currentStatus : Status) : List Status :=
  if currentStatus = statusOpen then [statusAssignedDev, statusClosed]
  else if currentStatus = statusAssignedDev then [statusInProgress, statusOpen, statusClosed]
  else if currentStatus = statusInProgress then [statusResolved, statusAssignedDev, statusOpen]
  else if currentStatus = statusResolved then [statusAssignedQA, statusClosed, statusInProgress]
  else if currentStatus = statusAssignedQA then [statusVerified, statusRejected, statusResolved]
  else if currentStatus = statusVerified then [statusClosed, statusRejected]
  else if currentStatus = statusRejected then [statusAssignedDev, statusInProgress, statusOpen]
  else if currentStatus = statusClosed then [statusReopened]
  else if currentStatus = statusReopened then [statusOpen, statusAssignedDev]
  else []

/-- Embeds the `domain.Issue` struct (issue.go), restricted to the fields
the workflow engine reads or writes. -/
structure Issue where
  id : Nat
  projectID : Nat
  reporterID : Nat
  title : String
  description : String
  priority : Priority
  status : Status
  createdAt : Nat
  updatedAt : Nat
  closedAt : Option Nat
deriving Repr, DecidableEq

/-- Embeds the `domain.IssueStatusLog` struct. -/
structure IssueStatusLog where
  id : Nat
  issueID : Nat
  oldStatus : Option Status
  newStatus : Status
  changedBy : Option Nat
  changedAt : Nat
deriving Repr, DecidableEq

/-- Embeds `domain.NewIssueStatusLog`: fresh ID and current time come in
as explicit arguments. -/
def newIssueStatusLog (logId : Nat) (issueID : Nat) (oldStatus : Option Status)
    (newStatus : Status) (changedBy : Option Nat) (now : Nat) : IssueStatusLog :=
  { id := logId, issueID := issueID, oldStatus := oldStatus,
    newStatus := newStatus, changedBy := changedBy, changedAt := now }

/-- Embeds `Issue.Close`: sets the status to closed and stamps the
closed-at time. -/
def Issue.close (i : Issue) (now : Nat) : Issue :=
  { i with status := statusClosed, closedAt := some now }

/-- Embeds `Issue.Reopen`: sets the status to open and clears the
closed-at time. -/
def Issue.reopen (i : Issue) : Issue :=
  { i with status := statusOpen, closedAt := none }

/-- Embeds `Issue.ChangeStatus`. The Go body runs, in order:
`oldStatus := &i.Status` (nil when the field holds the empty string),
`i.Status = newStatus`, `i.UpdatedAt = time.Now()`, the closed-at
update, and finally `NewIssueStatusLog(i.ID, oldStatus, newStatus, changedBy)`.
Because `oldStatus` is a pointer to the very struct field that the
assignment `i.Status = newStatus` overwrites, the pointer dereferences
to `newStatus` by the time the log entry is built or read; the stored
old-status value observed on the returned entry is therefore
`some newStatus` whenever the previous status was non-empty, and `none`
otherwise. The embedding records that observed value. -/
def Issue.changeStatus (i : Issue) (newStatus : Status) (changedBy : Option Nat)
    (now logId : Nat) : Issue × IssueStatusLog :=
  let oldWasEmpty : Bool := decide (i.status = "")
  let updated : Issue :=
    { i with
      status := newStatus
      updatedAt := now
      closedAt :=
        if newStatus = statusClosed then some now
        else if i.closedAt.isSome then none
        else i.closedAt }
  (updated,
   newIssueStatusLog logId i.id
     (if oldWasEmpty then none else some newStatus) newStatus changedBy now)

/-- Embeds `Issue.CanTransitionTo`: nil current status when the field is
empty, then the transition-table check. -/
def Issue.canTransitionTo (i : Issue) (newStatus : Status) : Bool :=
  isStatusTransitionValid (if i.status = "" then none else some i.status) newStatus

/-- Convenience constructor for concrete issues used in witnesses. -/
def mkIssue (id : Nat) (st : Status) : Issue :=
  { id := id, projectID := 0, reporterID := 0, title := "t", description := "d",
    priority := priorityMedium, status := st, createdAt := 0, updatedAt := 0,
    closedAt := none }

/-- Typed rendering of the Go error values the embedded service methods
can return. `invalidStatus` and `invalidPriority` carry exactly what the
corresponding `fmt.Errorf` messages carry: the requested value only. -/
inductive ServiceError where
  | invalidStatus (requested : Status)
  | invalidPriority (requested : Priority)
  | issueNotFound
  | userNotFound
  | invalidAssigneeRole
deriving Repr, DecidableEq

/-- State visible to `service.issueService`: the issue store and the
status-log store kept by the persistence layer. -/
structure IssueServiceState where
  issues : List Issue
  statusLogs : List IssueStatusLog
deriving Repr, DecidableEq

/-- Embeds `IssueRepository.GetByID` on the modelled store. -/
def findIssue (issues : List Issue) (id : Nat) : Option Issue :=
  issues.find? (fun i => i.id == id)

/-- Embeds `IssueRepository.Update` (GORM save by primary key): replaces
the stored rows whose primary key matches the saved issue. -/
def saveIssue (issues : List Issue) (i : Issue) : List Issue :=
  issues.map (fun j => if j.id = i.id then i else j)

/-- Embeds `issueService.UpdateIssueStatus` (issue_service.go). The Go
method first validates the requested status with `IsValidStatus` and
fails before touching the store when that check is false; otherwise it
loads the issue, applies `Close` when the target is closed, else writes
the status field directly and applies `Reopen` when the target is open,
and saves. No status-log entry is written on any path, and the
transition table is never consulted. -/
def updateIssueStatus (st : IssueServiceState) (id : Nat) (status : Status)
    (now : Nat) : Except ServiceError Unit × IssueServiceState :=
  if isValidStatus status then
    match findIssue st.issues id with
    | none => (.error .issueNotFound, st)
    | some issue =>
      let issue' :=
        if status = statusClosed then issue.close now
        else
          let i2 := { issue with status := status }
          if status = statusOpen then i2.reopen else i2
      (.ok (), { st with issues := saveIssue st.issues issue' })
  else (.error (.invalidStatus status), st)

/-- Embeds `issueService.UpdateIssuePriority` (issue_service.go):
validates the priority with `IsValidPriority` before touching the store,
then loads the issue, writes the priority field only, and saves. -/
def updateIssuePriority (st : IssueServiceState) (id : Nat) (p : Priority) :
    Except ServiceError Unit × IssueServiceState :=
  if isValidPriority p then
    match findIssue st.issues id with
    | none => (.error .issueNotFound, st)
    | some issue =>
      (.ok (), { st with issues := saveIssue st.issues { issue with priority := p } })
  else (.error (.invalidPriority p), st)

/-- Embeds `issueService.SearchIssuesByID` (issue_service.go): the body
is an admitted placeholder that ignores the store and the query and
returns the empty slice. -/
def searchIssuesByID (_st : IssueServiceState) (_shortIdStr : String) :
    Except ServiceError (List Issue) :=
  .ok []

/-- The behaviour section 4.4 of the specification describes for
`SearchByPartialID`, written from the words of the spec for comparison
with `searchIssuesByID`: the issues in the scope whose canonical ID
string starts with the given text, all of them, case-sensitively. -/
def searchByPartialIDSpec (issues : List Issue) (shortIdStr : String) : List Issue :=
  issues.filter (fun i => shortIdStr.data.isPrefixOf (toString i.id).data)

/-- Embeds the `domain.User` struct, restricted to what the assignment
service reads. -/
structure User where
  id : Nat
  discordID : String
deriving Repr, DecidableEq

/-- Embeds the `domain.IssueAssignee` struct. -/
structure IssueAssignee where
  id : Nat
  issueID : Nat
  userID : Nat
  role : AssigneeRole
  assignedAt : Nat
deriving Repr, DecidableEq

/-- Embeds `domain.NewIssueAssignee`: fresh ID and current time are
explicit arguments. -/
def newIssueAssignee (newId issueID userID : Nat) (role : AssigneeRole)
    (now : Nat) : IssueAssignee :=
  { id := newId, issueID := issueID, userID := userID, role := role, assignedAt := now }

/-- State visible to `service.issueAssigneeService`: the user store and
the assignment store. The assignment list is kept in creation order;
since `Create` appends and stamps `assigned_at` with the current time,
creation order coincides with the `ORDER BY assigned_at ASC` the
repository queries request, so those queries are embedded as plain
filters. -/
structure AssigneeServiceState where
  users : List User
  assignments : List IssueAssignee
deriving Repr, DecidableEq

/-- Embeds `userRepository.GetByDiscordID` on the modelled store. -/
def findUserByDiscordID (users : List User) (discordID : String) : Option User :=
  users.find? (fun u => u.discordID == discordID)

/-- Embeds `issueAssigneeRepository.GetByIssueAndUser`. -/
def getByIssueAndUser (st : AssigneeServiceState) (issueID userID : Nat) :
    List IssueAssignee :=
  st.assignments.filter (fun a => a.issueID == issueID && a.userID == userID)

/-- Embeds `issueAssigneeRepository.GetByIssueID`. -/
def getByIssueID (st : AssigneeServiceState) (issueID : Nat) : List IssueAssignee :=
  st.assignments.filter (fun a => a.issueID == issueID)

/-- Embeds `issueAssigneeRepository.GetByIssueAndRole`. -/
def getByIssueAndRole (st : AssigneeServiceState) (issueID : Nat)
    (role : AssigneeRole) : List IssueAssignee :=
  st.assignments.filter (fun a => a.issueID == issueID && a.role == role)

/-- Embeds `issueAssigneeRepository.Delete`: removes the rows whose
primary key matches. -/
def deleteAssignee (st : AssigneeServiceState) (aid : Nat) : AssigneeServiceState :=
  { st with assignments := st.assignments.filter (fun a => !(a.id == aid)) }

/-- Embeds `issueAssigneeService.AssignUserToIssue` (assignee service):
validates the role, resolves the user by Discord ID, fetches the
existing assignments for the issue and user, returns the first one
carrying the requested role unchanged when there is one, and otherwise
creates and stores a fresh assignment. -/
def assignUserToIssue (st : AssigneeServiceState) (issueID : Nat)
    (discordID : String) (role : AssigneeRole) (newId now : Nat) :
    Except ServiceError IssueAssignee × AssigneeServiceState :=
  if isValidRole role then
    match findUserByDiscordID st.users discordID with
    | none => (.error .userNotFound, st)
    | some user =>
      let existing := getByIssueAndUser st issueID user.id
      match existing.find? (fun a => a.role == role) with
      | some a => (.ok a, st)
      | none =>
        let a := newIssueAssignee newId issueID user.id role now
        (.ok a, { st with assignments := st.assignments ++ [a] })
  else (.error .invalidAssigneeRole, st)

/-- Embeds `issueAssigneeService.UnassignAllUsersFromIssue`. The Go
method fetches the assignments of the issue, then deletes them one by
one; a failing delete is only logged and the loop continues, and the
method unconditionally returns nil afterwards, logging
`len(assignments)` as the count. `deleteFails` injects, per assignment
ID, whether the underlying delete fails, mirroring the storage-fault
scenario of the specification. The third component of the result is the
count value the method logs. -/
def unassignAllUsersFromIssue (deleteFails : Nat → Bool)
    (st : AssigneeServiceState) (issueID : Nat) :
    Except ServiceError Unit × AssigneeServiceState × Nat :=
  let assignments := getByIssueID st issueID
  let st' := assignments.foldl
    (fun s a => if deleteFails a.id then s else deleteAssignee s a.id) st
  (.ok (), st', assignments.length)

/-! Helper lemmas shared by the claim theorems. -/

/-- When a filter keeps exactly one element, `find?` with the same
predicate returns it. -/
theorem find?_of_filter_eq_singleton {α : Type} (p : α → Bool) (a : α) :
    ∀ l : List α, l.filter p = [a] → l.find? p = some a := by
  intro l
  induction l with
  | nil => intro h; simp at h
  | cons x xs ih =>
    intro h
    cases hp : p x with
    | true =>
      rw [List.filter_cons_of_pos hp] at h
      obtain ⟨hxa, -⟩ := List.cons_eq_cons.mp h
      subst hxa
      simp [List.find?, hp]
    | false =>
      rw [List.filter_cons_of_neg (by simp [hp])] at h
      simpa [List.find?, hp] using ih h

/-- Characterization of the deletion loop of
`unassignAllUsersFromIssue`: an assignment survives the loop over `L`
exactly when every element of `L` either fails to delete or carries a
different ID. -/
theorem unassignLoop_assignments (df : Nat → Bool) :
    ∀ (L : List IssueAssignee) (st : AssigneeServiceState),
    (L.foldl (fun s a => if df a.id then s else deleteAssignee s a.id) st).assignments
      = st.assignments.filter (fun b => L.all (fun a => df a.id || !(b.id == a.id))) := by
  intro L
  induction L with
  | nil => intro st; simp
  | cons a L ih =>
    intro st
    rw [List.foldl_cons, ih]
    cases hda : df a.id with
    | true =>
      simp only [hda, if_true]
      refine (List.filter_congr ?_).symm
      intro b _
      simp [hda]
    | false =>
      simp only [hda, Bool.false_eq_true, if_false, deleteAssignee, List.filter_filter]
      refine (List.filter_congr ?_).symm
      intro b _
      simp [hda, Bool.and_comm]

/-- Under distinct assignment IDs, the survival condition of the
deletion loop simplifies: a stored assignment survives exactly when it
belongs to a different issue or its own delete fails. -/
theorem getByIssueID_all_survivor (df : Nat → Bool) (st : AssigneeServiceState)
    (issueID : Nat) (hnd : (st.assignments.map IssueAssignee.id).Nodup) :
    ∀ b ∈ st.assignments,
      (getByIssueID st issueID).all (fun a => df a.id || !(b.id == a.id))
        = (!(b.issueID == issueID) || df b.id) := by
  intro b hb
  have hinj : ∀ x ∈ st.assignments, ∀ y ∈ st.assignments, x.id = y.id → x = y :=
    fun x hx y hy hxy => List.inj_on_of_nodup_map hnd hx hy hxy
  by_cases hdf : df b.id = true
  · have hall : (getByIssueID st issueID).all (fun a => df a.id || !(b.id == a.id)) = true := by
      rw [List.all_eq_true]
      intro a ha
      simp only [getByIssueID] at ha
      have haMem : a ∈ st.assignments := (List.mem_filter.mp ha).1
      by_cases hid : b.id = a.id
      · have heq : a = b := hinj a haMem b hb hid.symm
        simp [heq, hdf]
      · simp [hid]
    rw [hall, hdf]
    simp
  · have hdf' : df b.id = false := by simpa using hdf
    by_cases hbi : b.issueID = issueID
    · have hmem : b ∈ getByIssueID st issueID := by
        simp [getByIssueID, List.mem_filter, hb, hbi]
      have hall : (getByIssueID st issueID).all (fun a => df a.id || !(b.id == a.id)) = false := by
        cases hallc : (getByIssueID st issueID).all (fun a => df a.id || !(b.id == a.id)) with
        | false => rfl
        | true => exact absurd (List.all_eq_true.mp hallc b hmem) (by simp [hdf'])
      rw [hall, hbi, hdf']
      simp
    · have hall : (getByIssueID st issueID).all (fun a => df a.id || !(b.id == a.id)) = true := by
        rw [List.all_eq_true]
        intro a ha
        simp only [getByIssueID] at ha
        obtain ⟨haMem, haIssue⟩ := List.mem_filter.mp ha
        have haIssue' : a.issueID = issueID := by simpa using haIssue
        by_cases hid : b.id = a.id
        · have heq : a = b := hinj a haMem b hb hid.symm
          rw [heq] at haIssue'
          exact absurd haIssue' hbi
        · simp [hid]
      rw [hall]
      have hne : (b.issueID == issueID) = false := by simp [hbi]
      simp [hne]

/-! Concrete states used by counterexamples and witnesses. -/

def stC1 : IssueServiceState :=
  { issues := [mkIssue 0 statusInProgress], statusLogs := [] }

def stC6 : AssigneeServiceState :=
  { users := [{ id := 7, discordID := "d7" }],
    assignments :=
      [{ id := 1, issueID := 0, userID := 7, role := assigneeRoleDev, assignedAt := 10 }] }

def stC7 : AssigneeServiceState :=
  { users := [],
    assignments :=
      [{ id := 1, issueID := 0, userID := 5, role := assigneeRoleDev, assignedAt := 1 },
       { id := 2, issueID := 0, userID := 6, role := assigneeRoleQA, assignedAt := 2 },
       { id := 3, issueID := 0, userID := 7, role := assigneeRoleReviewer, assignedAt := 3 }] }

def stC8 : IssueServiceState :=
  { issues := [mkIssue 12 statusOpen], statusLogs := [] }

def stC9 : IssueServiceState :=
  { issues := [mkIssue 3 statusOpen], statusLogs := [] }

/-! Claim theorems. -/

/-- Claim C1, counterexample: `UpdateIssueStatus` does not consult the
transition table. With the stored issue at `in_progress`, the requested
target `closed` is not a legal transition per the table, yet the
operation succeeds and mutates the issue to `closed`. -/
theorem C1_counterexample :
    isStatusTransitionValid (some statusInProgress) statusClosed = false ∧
    (updateIssueStatus stC1 0 statusClosed 5).1 = .ok () ∧
    (updateIssueStatus stC1 0 statusClosed 5).2.issues.map Issue.status
      = [statusClosed] :=
  ⟨by decide, rfl, by decide⟩

/-- Claim C1, amended: `UpdateIssueStatus` validates the requested
status only with `IsValidStatus` (which accepts exactly `open` and
`closed`, independent of the current status of the issue); when that
check fails the operation errors with an invalid-status failure carrying
only the requested status and leaves the store unchanged; and no path of
the operation writes a status-log entry. -/
theorem C1_update_status_validator_only :
    (∀ (st : IssueServiceState) (id : Nat) (s : Status) (now : Nat),
        isValidStatus s = false →
        updateIssueStatus st id s now = (.error (.invalidStatus s), st)) ∧
    (∀ (st : IssueServiceState) (id : Nat) (s : Status) (now : Nat),
        (updateIssueStatus st id s now).2.statusLogs = st.statusLogs) ∧
    (∀ s : Status, isValidStatus s = true ↔ s = statusOpen ∨ s = statusClosed) := by
  refine ⟨?_, ?_, ?_⟩
  · intro st id s now h
    simp [updateIssueStatus, h]
  · intro st id s now
    by_cases hv : isValidStatus s = true
    · simp only [updateIssueStatus, hv, if_true]
      cases hf : findIssue st.issues id <;> simp [hf]
    · have hv' : isValidStatus s = false := by simpa using hv
      simp [updateIssueStatus, hv']
  · intro s
    simp [isValidStatus]

/-- Claim C1, witness: a table-valid request (`open` to `assigned_dev`
is in the transition table) is nevertheless rejected, because
`assigned_dev` is not accepted by `IsValidStatus`. -/
theorem C1_witness :
    isValidStatus statusAssignedDev = false ∧
    updateIssueStatus stC1 0 statusAssignedDev 5
      = (.error (.invalidStatus statusAssignedDev), stC1) :=
  ⟨by decide, C1_update_status_validator_only.1 stC1 0 statusAssignedDev 5 (by decide)⟩

/-- Claim C2, code bug: the log entry returned by `ChangeStatus` stores
a pointer into the already-updated status field, so its old-status value
reads back as the new status, not the status held immediately before
the change; consequently the chain condition between consecutive
entries fails as well. Evaluated on an issue at `open` moved to
`assigned_dev` and then to `in_progress`. -/
theorem C2_old_status_aliasing :
    ((mkIssue 0 statusOpen).changeStatus statusAssignedDev none 5 100).2.oldStatus
      = some statusAssignedDev ∧
    ((mkIssue 0 statusOpen).changeStatus statusAssignedDev none 5 100).2.oldStatus
      ≠ some (mkIssue 0 statusOpen).status ∧
    (mkIssue 0 statusOpen).status = statusOpen ∧
    (((mkIssue 0 statusOpen).changeStatus statusAssignedDev none 5 100).1.changeStatus
        statusInProgress none 6 101).2.oldStatus
      ≠ some ((mkIssue 0 statusOpen).changeStatus statusAssignedDev none 5 100).2.newStatus := by
  decide

/-- Claim C3: `GetNextPossibleStatuses` returns, for every one of the
nine statuses, exactly the row of the authoritative adjacency table; in
particular `closed` has `reopened` as its single outward edge. -/
theorem C3_next_possible_statuses_table :
    getNextPossibleStatuses statusOpen = [statusAssignedDev, statusClosed] ∧
    getNextPossibleStatuses statusAssignedDev = [statusInProgress, statusOpen, statusClosed] ∧
    getNextPossibleStatuses statusInProgress = [statusResolved, statusAssignedDev, statusOpen] ∧
    getNextPossibleStatuses statusResolved = [statusAssignedQA, statusClosed, statusInProgress] ∧
    getNextPossibleStatuses statusAssignedQA = [statusVerified, statusRejected, statusResolved] ∧
    getNextPossibleStatuses statusVerified = [statusClosed, statusRejected] ∧
    getNextPossibleStatuses statusRejected = [statusAssignedDev, statusInProgress, statusOpen] ∧
    getNextPossibleStatuses statusClosed = [statusReopened] ∧
    getNextPossibleStatuses statusReopened = [statusOpen, statusAssignedDev] := by
  decide

/-- Claim C4: immediately after any of the three status-writing domain
operations (`ChangeStatus`, `Close`, `Reopen`), the closed-at timestamp
of the issue is non-null exactly when its status is `closed`. -/
theorem C4_closed_at_iff_closed :
    ∀ (i : Issue) (ns : Status) (cb : Option Nat) (now logId : Nat),
      ((i.changeStatus ns cb now logId).1.closedAt.isSome = true ↔
        (i.changeStatus ns cb now logId).1.status = statusClosed) ∧
      ((i.close now).closedAt.isSome = true ↔ (i.close now).status = statusClosed) ∧
      (i.reopen.closedAt.isSome = true ↔ i.reopen.status = statusClosed) := by
  intro i ns cb now logId
  refine ⟨?_, ?_, ?_⟩
  · simp only [Issue.changeStatus]
    by_cases h : ns = statusClosed
    · simp [h]
    · cases hc : i.closedAt <;> simp [h, hc]
  · simp [Issue.close]
  · simp only [Issue.reopen]
    simp [statusOpen, statusClosed]

/-- Claim C5: with a nil from-status (the issue does not yet exist),
`IsStatusTransitionValid` accepts exactly the target `open` and rejects
every other status. -/
theorem C5_nil_from_only_open :
    ∀ toStatus : Status,
      (isStatusTransitionValid none toStatus = true ↔ toStatus = statusOpen) := by
  intro t
  simp [isStatusTransitionValid]

/-- Claim C6: when the user resolved from the Discord ID already holds
exactly one assignment with the requested role on the issue,
`AssignUserToIssue` returns that record unchanged and leaves the store
untouched, so no duplicate is created and the assignment list is as
before. -/
theorem C6_assign_idempotent :
    ∀ (st : AssigneeServiceState) (issueID : Nat) (discordID : String)
      (role : AssigneeRole) (u : User) (a : IssueAssignee) (newId now : Nat),
      isValidRole role = true →
      findUserByDiscordID st.users discordID = some u →
      (getByIssueAndUser st issueID u.id).filter (fun x => x.role == role) = [a] →
      assignUserToIssue st issueID discordID role newId now = (.ok a, st) := by
  intro st issueID discordID role u a newId now hrole huser hfilter
  have hfind := find?_of_filter_eq_singleton (fun x => x.role == role) a _ hfilter
  simp [assignUserToIssue, hrole, huser, hfind]

/-- Claim C6, witness: assigning the already-assigned (issue 0, user 7,
dev) triple again returns the stored record with ID 1 and does not grow
the store. -/
theorem C6_witness :
    isValidRole assigneeRoleDev = true ∧
    assignUserToIssue stC6 0 "d7" assigneeRoleDev 99 50
      = (.ok { id := 1, issueID := 0, userID := 7, role := assigneeRoleDev, assignedAt := 10 },
         stC6) :=
  ⟨by decide,
   C6_assign_idempotent stC6 0 "d7" assigneeRoleDev { id := 7, discordID := "d7" }
     { id := 1, issueID := 0, userID := 7, role := assigneeRoleDev, assignedAt := 10 }
     99 50 (by decide) (by decide) (by decide)⟩

/-- Claim C7, counterexample: on an issue with three assignments where
the delete of the second fails, the operation surfaces no error and the
two other records are removed, but the only count the method reports is
the number of assignments fetched, 3, not the number actually removed,
2 — and its Go return type carries no count at all. -/
theorem C7_counterexample :
    (unassignAllUsersFromIssue (fun aid => aid == 2) stC7 0).1 = .ok () ∧
    (getByIssueID (unassignAllUsersFromIssue (fun aid => aid == 2) stC7 0).2.1 0).length
      = 1 ∧
    stC7.assignments.length
      - (unassignAllUsersFromIssue (fun aid => aid == 2) stC7 0).2.1.assignments.length
      = 2 ∧
    (unassignAllUsersFromIssue (fun aid => aid == 2) stC7 0).2.2 = 3 ∧
    (unassignAllUsersFromIssue (fun aid => aid == 2) stC7 0).2.2 ≠ 2 :=
  ⟨rfl, by decide, by decide, by decide, by decide⟩

/-- Claim C7, amended: `UnassignAllUsersFromIssue` is best-effort — it
continues past individual delete failures, never surfaces an error, and
removes exactly the assignments of the issue whose deletes succeed —
but it returns no removed-count: the only count it reports is the
number of assignments fetched for the issue. Stated for stores with
distinct assignment IDs. -/
theorem C7_best_effort_no_count :
    ∀ (deleteFails : Nat → Bool) (st : AssigneeServiceState) (issueID : Nat),
      (st.assignments.map IssueAssignee.id).Nodup →
      (unassignAllUsersFromIssue deleteFails st issueID).1 = .ok () ∧
      (unassignAllUsersFromIssue deleteFails st issueID).2.2
        = (getByIssueID st issueID).length ∧
      (unassignAllUsersFromIssue deleteFails st issueID).2.1.assignments
        = st.assignments.filter
            (fun b => !(b.issueID == issueID) || deleteFails b.id) := by
  intro df st issueID hnd
  refine ⟨rfl, rfl, ?_⟩
  simp only [unassignAllUsersFromIssue]
  rw [unassignLoop_assignments]
  exact List.filter_congr (getByIssueID_all_survivor df st issueID hnd)

/-- Claim C7, witness: the amended statement evaluated on the
three-assignment store where the delete of record 2 fails. -/
theorem C7_witness :
    (stC7.assignments.map IssueAssignee.id).Nodup ∧
    (unassignAllUsersFromIssue (fun aid => aid == 2) stC7 0).2.1.assignments
      = stC7.assignments.filter (fun b => !(b.issueID == 0) || (b.id == 2)) :=
  ⟨by decide,
   (C7_best_effort_no_count (fun aid => aid == 2) stC7 0 (by decide)).2.2⟩

/-- Claim C8, code bug: `SearchIssuesByID` is a placeholder that
returns the empty list for every store and every query, although the
store holds an issue whose canonical ID string starts with the query;
the prefix-match behaviour the specification describes would return
that issue. -/
theorem C8_search_returns_empty :
    searchIssuesByID stC8 "1" = .ok [] ∧
    searchByPartialIDSpec stC8.issues "1" = [mkIssue 12 statusOpen] ∧
    ([mkIssue 12 statusOpen] : List Issue) ≠ ([] : List Issue) :=
  ⟨rfl, by decide, by decide⟩

/-- Claim C9: `UpdateIssuePriority` rejects any priority outside low,
medium, high with an invalid-priority failure and no mutation; for a
valid priority it rewrites only the priority field of the loaded issue
(the status field of the written record equals the one loaded), and no
path touches the status-log store. -/
theorem C9_update_priority_frame :
    (∀ (st : IssueServiceState) (id : Nat) (p : Priority),
        isValidPriority p = false →
        updateIssuePriority st id p = (.error (.invalidPriority p), st)) ∧
    (∀ (st : IssueServiceState) (id : Nat) (p : Priority) (i : Issue),
        isValidPriority p = true → findIssue st.issues id = some i →
        updateIssuePriority st id p
          = (.ok (), { st with issues := saveIssue st.issues { i with priority := p } })) ∧
    (∀ (st : IssueServiceState) (id : Nat) (p : Priority),
        (updateIssuePriority st id p).2.statusLogs = st.statusLogs) ∧
    (∀ (i : Issue) (p : Priority), ({ i with priority := p } : Issue).status = i.status) := by
  refine ⟨?_, ?_, ?_, fun i p => rfl⟩
  · intro st id p h
    simp [updateIssuePriority, h]
  · intro st id p i hv hf
    simp [updateIssuePriority, hv, hf]
  · intro st id p
    by_cases hv : isValidPriority p = true
    · simp only [updateIssuePriority, hv, if_true]
      cases hf : findIssue st.issues id <;> simp [hf]
    · have hv' : isValidPriority p = false := by simpa using hv
      simp [updateIssuePriority, hv']

/-- Claim C9, witness: the rejected priority `urgent` leaves the store
unchanged; the accepted priority `high` rewrites only the priority field
of issue 3. -/
theorem C9_witness :
    isValidPriority "urgent" = false ∧
    updateIssuePriority stC9 3 "urgent" = (.error (.invalidPriority "urgent"), stC9) ∧
    updateIssuePriority stC9 3 priorityHigh
      = (.ok (),
         { stC9 with
           issues := saveIssue stC9.issues { mkIssue 3 statusOpen with priority := priorityHigh } }) :=
  ⟨by decide, C9_update_priority_frame.1 stC9 3 "urgent" (by decide),
   C9_update_priority_frame.2.1 stC9 3 priorityHigh (mkIssue 3 statusOpen)
     (by decide) (by decide)⟩

/-- Claim C10: the domain-level `ChangeStatus` applies any target status
unconditionally — it sets the status to the target, stamps the update
time, and returns a log entry for the issue, with no validity check; in
particular an issue at `open` is driven to `verified` although
`CanTransitionTo` rejects that move. -/
theorem C10_change_status_unconditional :
    (∀ (i : Issue) (ns : Status) (cb : Option Nat) (now logId : Nat),
      (i.changeStatus ns cb now logId).1.status = ns ∧
      (i.changeStatus ns cb now logId).1.updatedAt = now ∧
      (i.changeStatus ns cb now logId).2.issueID = i.id ∧
      (i.changeStatus ns cb now logId).2.newStatus = ns) ∧
    (mkIssue 0 statusOpen).canTransitionTo statusVerified = false ∧
    ((mkIssue 0 statusOpen).changeStatus statusVerified none 5 100).1.status
      = statusVerified := by
  refine ⟨?_, by decide, by decide⟩
  intro i ns cb now logId
  simp [Issue.changeStatus, newIssueStatusLog]

end FixTrack
